import Mathlib

/-!
# Verification of the order-tracking lookup and normalization pipeline

Shallow embedding of the core pipeline of the smart-order-tracking-page
repository: the order match resolver (`findOrderByNumberAndContact` in the
Shopify service), the carrier tracking client (`getTrackingInfo`,
`getFallbackTracking`, `normalizeStatus` in `trackingService.js`), the public
lookup route (`POST /lookup/:shopDomain` in `routes/tracking.js`) and the
tracking endpoint of `simple-server.js`.

External collaborators (the commerce-platform REST API, per-carrier HTTP
calls, the settings/analytics database) are modelled as explicit oracle
parameters; a thrown JS exception is an `Except.error`.
-/

namespace Tracking

/-- Contiguous-sublist test on character lists. -/
def charsInfix (needle : List Char) : List Char → Bool
  | [] => needle.isEmpty
  | a :: rest => needle.isPrefixOf (a :: rest) || charsInfix needle rest

/-- JS `hay.includes(needle)`: substring containment test. -/
def strIncludes (hay needle : String) : Bool :=
  charsInfix needle.toList hay.toList

/-- JS `toLowerCase()` (character-wise lowercasing, stated over the
character list so that it evaluates by kernel reduction). -/
def strToLower (s : String) : String :=
  ⟨s.data.map Char.toLower⟩

/-- JS truthiness of an optional string: `undefined`/`null` and `""` are falsy. -/
def truthy : Option String → Bool
  | none => false
  | some s => !(s == "")

/-!
## Carrier Status Normalizer (`trackingService.js`, `normalizeStatus`)
-/

/-- Embedding of `TrackingService.normalizeStatus`.  The JS guard
`if (!status) return 'Unknown'` fires on `null`/`undefined` (here `none`)
and on the empty string. -/
def normalizeStatus (status : Option String) : String :=
  match status with
  | none => "Unknown"
  | some s =>
    if s == "" then "Unknown"
    else
      let statusLower := strToLower s
      if strIncludes statusLower "delivered" then "Delivered"
      else if strIncludes statusLower "out for delivery" then "Out for Delivery"
      else if strIncludes statusLower "in transit" || strIncludes statusLower "on the way" then "In Transit"
      else if strIncludes statusLower "picked up" || strIncludes statusLower "collected" then "Picked Up"
      else if strIncludes statusLower "processing" || strIncludes statusLower "preparing" then "Processing"
      else if strIncludes statusLower "exception" || strIncludes statusLower "delayed" then "Exception"
      else if strIncludes statusLower "returned" then "Returned"
      else s

/-- The normalizer's keyword table as an ordered list of buckets, stated the
way the specification describes it: keyword lists paired with the canonical
display string, evaluated in priority order with first match winning. -/
def statusBuckets : List (List String × String) :=
  [ (["delivered"], "Delivered")
  , (["out for delivery"], "Out for Delivery")
  , (["in transit", "on the way"], "In Transit")
  , (["picked up", "collected"], "Picked Up")
  , (["processing", "preparing"], "Processing")
  , (["exception", "delayed"], "Exception")
  , (["returned"], "Returned") ]

/-- Specification-side normalizer: first bucket (in the fixed priority order
of `statusBuckets`) whose keyword list has a case-insensitive substring match
wins; `null`/empty input gives `"Unknown"`; an unmatched raw string passes
through unchanged. -/
def normalizeStatusSpec (status : Option String) : String :=
  match status with
  | none => "Unknown"
  | some s =>
    if s == "" then "Unknown"
    else
      match statusBuckets.find? (fun b => b.1.any (fun k => strIncludes (strToLower s) k)) with
      | some b => b.2
      | none => s

/-- C6: `normalizeStatus` applies case-insensitive substring tests in the
fixed priority order of `statusBuckets` (delivered, out for delivery,
in transit/on the way, picked up/collected, processing/preparing,
exception/delayed, returned), first match winning; `null`/empty input gives
`"Unknown"`; an unmatched raw string is returned unchanged.  This is stated
as extensional equality with the ordered-bucket specification
`normalizeStatusSpec`, together with the `null`/empty instances and the
spec's worked examples. -/
theorem normalizeStatus_priority_order :
    (∀ st : Option String, normalizeStatus st = normalizeStatusSpec st) ∧
    normalizeStatus none = "Unknown" ∧
    normalizeStatus (some "") = "Unknown" ∧
    normalizeStatus (some "Delivered to front door") = "Delivered" ∧
    normalizeStatus (some "Package is out for delivery") = "Out for Delivery" ∧
    normalizeStatus (some "lost in the warehouse") = "lost in the warehouse" := by
  refine ⟨?_, rfl, by decide, by decide, by decide, by decide⟩
  intro st
  cases st with
  | none => rfl
  | some s =>
    by_cases he : (s == "") = true
    · simp [normalizeStatus, normalizeStatusSpec, he]
    · by_cases h1 : strIncludes (strToLower s) "delivered" = true
      · simp [normalizeStatus, normalizeStatusSpec, statusBuckets, List.find?, he, h1]
      · by_cases h2 : strIncludes (strToLower s) "out for delivery" = true
        · simp [normalizeStatus, normalizeStatusSpec, statusBuckets, List.find?, he, h1, h2]
        · by_cases h3 : strIncludes (strToLower s) "in transit" = true
          · simp [normalizeStatus, normalizeStatusSpec, statusBuckets, List.find?, he, h1, h2, h3]
          · by_cases h4 : strIncludes (strToLower s) "on the way" = true
            · simp [normalizeStatus, normalizeStatusSpec, statusBuckets, List.find?, he, h1, h2, h3, h4]
            · by_cases h5 : strIncludes (strToLower s) "picked up" = true
              · simp [normalizeStatus, normalizeStatusSpec, statusBuckets, List.find?, he, h1, h2, h3, h4, h5]
              · by_cases h6 : strIncludes (strToLower s) "collected" = true
                · simp [normalizeStatus, normalizeStatusSpec, statusBuckets, List.find?, he,
                    h1, h2, h3, h4, h5, h6]
                · by_cases h7 : strIncludes (strToLower s) "processing" = true
                  · simp [normalizeStatus, normalizeStatusSpec, statusBuckets, List.find?, he,
                      h1, h2, h3, h4, h5, h6, h7]
                  · by_cases h8 : strIncludes (strToLower s) "preparing" = true
                    · simp [normalizeStatus, normalizeStatusSpec, statusBuckets, List.find?, he,
                        h1, h2, h3, h4, h5, h6, h7, h8]
                    · by_cases h9 : strIncludes (strToLower s) "exception" = true
                      · simp [normalizeStatus, normalizeStatusSpec, statusBuckets, List.find?, he,
                          h1, h2, h3, h4, h5, h6, h7, h8, h9]
                      · by_cases h10 : strIncludes (strToLower s) "delayed" = true
                        · simp [normalizeStatus, normalizeStatusSpec, statusBuckets, List.find?, he,
                            h1, h2, h3, h4, h5, h6, h7, h8, h9, h10]
                        · by_cases h11 : strIncludes (strToLower s) "returned" = true
                          · simp [normalizeStatus, normalizeStatusSpec, statusBuckets, List.find?, he,
                              h1, h2, h3, h4, h5, h6, h7, h8, h9, h10, h11]
                          · simp [normalizeStatus, normalizeStatusSpec, statusBuckets, List.find?, he,
                              h1, h2, h3, h4, h5, h6, h7, h8, h9, h10, h11]

/-- C10: `normalizeStatus` is idempotent — re-normalizing any output of
`normalizeStatus` (a canonical display string, `"Unknown"`, or a raw string
passed through unmatched) leaves it unchanged. -/
theorem normalizeStatus_idempotent :
    ∀ st : Option String,
      normalizeStatus (some (normalizeStatus st)) = normalizeStatus st := by
  intro st
  cases st with
  | none => decide
  | some s =>
    by_cases he : (s == "") = true
    · have h : normalizeStatus (some s) = "Unknown" := by simp [normalizeStatus, he]
      rw [h]; decide
    · by_cases h1 : strIncludes (strToLower s) "delivered" = true
      · have h : normalizeStatus (some s) = "Delivered" := by simp [normalizeStatus, he, h1]
        rw [h]; decide
      · by_cases h2 : strIncludes (strToLower s) "out for delivery" = true
        · have h : normalizeStatus (some s) = "Out for Delivery" := by
            simp [normalizeStatus, he, h1, h2]
          rw [h]; decide
        · by_cases h3 : strIncludes (strToLower s) "in transit" = true
          · have h : normalizeStatus (some s) = "In Transit" := by
              simp [normalizeStatus, he, h1, h2, h3]
            rw [h]; decide
          · by_cases h4 : strIncludes (strToLower s) "on the way" = true
            · have h : normalizeStatus (some s) = "In Transit" := by
                simp [normalizeStatus, he, h1, h2, h3, h4]
              rw [h]; decide
            · by_cases h5 : strIncludes (strToLower s) "picked up" = true
              · have h : normalizeStatus (some s) = "Picked Up" := by
                  simp [normalizeStatus, he, h1, h2, h3, h4, h5]
                rw [h]; decide
              · by_cases h6 : strIncludes (strToLower s) "collected" = true
                · have h : normalizeStatus (some s) = "Picked Up" := by
                    simp [normalizeStatus, he, h1, h2, h3, h4, h5, h6]
                  rw [h]; decide
                · by_cases h7 : strIncludes (strToLower s) "processing" = true
                  · have h : normalizeStatus (some s) = "Processing" := by
                      simp [normalizeStatus, he, h1, h2, h3, h4, h5, h6, h7]
                    rw [h]; decide
                  · by_cases h8 : strIncludes (strToLower s) "preparing" = true
                    · have h : normalizeStatus (some s) = "Processing" := by
                        simp [normalizeStatus, he, h1, h2, h3, h4, h5, h6, h7, h8]
                      rw [h]; decide
                    · by_cases h9 : strIncludes (strToLower s) "exception" = true
                      · have h : normalizeStatus (some s) = "Exception" := by
                          simp [normalizeStatus, he, h1, h2, h3, h4, h5, h6, h7, h8, h9]
                        rw [h]; decide
                      · by_cases h10 : strIncludes (strToLower s) "delayed" = true
                        · have h : normalizeStatus (some s) = "Exception" := by
                            simp [normalizeStatus, he, h1, h2, h3, h4, h5, h6, h7, h8, h9, h10]
                          rw [h]; decide
                        · by_cases h11 : strIncludes (strToLower s) "returned" = true
                          · have h : normalizeStatus (some s) = "Returned" := by
                              simp [normalizeStatus, he, h1, h2, h3, h4, h5, h6, h7, h8, h9, h10, h11]
                            rw [h]; decide
                          · have h : normalizeStatus (some s) = s := by
                              simp [normalizeStatus, he, h1, h2, h3, h4, h5, h6, h7, h8, h9, h10, h11]
                            rw [h, h]

/-!
## Order Match Resolver (`shopifyService.findOrderByNumberAndContact`)

The commerce-platform REST transport is an oracle
`OrdersApi : OrderQuery → Except String (Option (List JsOrder))`:
`Except.error` is a thrown transport/API error, `Option.none` is a response
body with no `orders` field, and `some orders` is the candidate list.
`getOrderFulfillments` catches its own errors and returns `[]`, so it is a
total oracle `FulfillApi : Nat → List Fulfillment`.
-/

/-- The order fields the service copies out of a commerce-platform order and
uses for contact matching. -/
structure JsOrder where
  id : Nat
  order_number : Nat
  name : String
  email : Option String
  phone : Option String
  financial_status : Option String
  fulfillment_status : Option String
  total_price : Option String
  currency : Option String
deriving DecidableEq

/-- The fulfillment fields the service copies out of a commerce-platform
fulfillment record. -/
structure Fulfillment where
  id : Nat
  status : Option String
  tracking_company : Option String
  tracking_number : Option String
  tracking_url : Option String
deriving DecidableEq

/-- The query sent to the commerce platform's `orders` endpoint. -/
structure OrderQuery where
  name : String
  status : String
  limit : Nat
deriving DecidableEq

def OrdersApi := OrderQuery → Except String (Option (List JsOrder))

def FulfillApi := Nat → List Fulfillment

/-- JS `orderNumber.replace(/^#/, '')`: strip a single leading `#`. -/
def stripHash (s : String) : String :=
  match s.data with
  | c :: rest => if c == '#' then ⟨rest⟩ else s
  | [] => s

/-- The query `findOrderByNumberAndContact` issues: cleaned order number,
`status: 'any'`, `limit: 10`. -/
def orderQuery (orderNumber : String) : OrderQuery :=
  { name := stripHash orderNumber, status := "any", limit := 10 }

/-- The candidate filter inside `findOrderByNumberAndContact`: stored email
compared case-insensitively against the lowercased contact, or stored phone
compared verbatim.  A missing email/phone (`none`) never matches. -/
def contactMatches (contactInfo : String) (order : JsOrder) : Bool :=
  let email := order.email.map strToLower
  let contactLower := strToLower contactInfo
  email == some contactLower || order.phone == some contactInfo

/-- Result of `findOrderByNumberAndContact`: `ok` is `{success: true, order}`
(carrying the matched order and its fetched fulfillments), `err` is
`{success: false, error}`. -/
inductive FindResult where
  | ok (order : JsOrder) (fulfillments : List Fulfillment)
  | err (error : String)
deriving DecidableEq

/-- Embedding of `ShopifyService.findOrderByNumberAndContact`.  A transport
error is caught by the surrounding `try`/`catch` and reported as
`'Failed to search for order'`; a missing or empty candidate list gives
`'Order not found'`; candidates with no contact match give
`'Order not found with provided contact information'`; otherwise the first
matching candidate (JS `Array.prototype.find`) is returned together with its
fulfillments. -/
def findOrderByNumberAndContact (ordersApi : OrdersApi) (fulfillApi : FulfillApi)
    (orderNumber contactInfo : String) : FindResult :=
  match ordersApi (orderQuery orderNumber) with
  | .error _ => .err "Failed to search for order"
  | .ok body =>
    match body with
    | none => .err "Order not found"
    | some orders =>
      if orders.length = 0 then .err "Order not found"
      else
        match orders.find? (contactMatches contactInfo) with
        | none => .err "Order not found with provided contact information"
        | some matchingOrder => .ok matchingOrder (fulfillApi matchingOrder.id)

/-- Helper: `List.find?` returns the element at the first index satisfying the
predicate. -/
lemma find?_eq_get_of_first {α : Type _} (p : α → Bool) (l : List α) (i : Nat)
    (hi : i < l.length) (hp : p (l.get ⟨i, hi⟩) = true)
    (hbefore : ∀ j, ∀ hj : j < l.length, j < i → p (l.get ⟨j, hj⟩) = false) :
    l.find? p = some (l.get ⟨i, hi⟩) := by
  induction l generalizing i with
  | nil => exact absurd hi (by simp)
  | cons a as ih =>
    cases i with
    | zero => simp_all [List.find?]
    | succ n =>
      have ha : p a = false := hbefore 0 (by simp) (Nat.succ_pos n)
      have hn : n < as.length := Nat.lt_of_succ_lt_succ hi
      have : as.find? p = some (as.get ⟨n, hn⟩) := by
        refine ih n hn hp ?_
        intro j hj hlt
        exact hbefore (j + 1) (Nat.succ_lt_succ hj) (Nat.succ_lt_succ hlt)
      simpa [List.find?, ha] using this

/-- Helper: `List.find?` returns `none` when no element satisfies the predicate. -/
lemma find?_eq_none_of_all {α : Type _} (p : α → Bool) (l : List α)
    (h : ∀ x ∈ l, p x = false) : l.find? p = none := by
  induction l with
  | nil => rfl
  | cons a as ih =>
    have ha : p a = false := h a (List.mem_cons_self a as)
    simp only [List.find?, ha]
    exact ih fun x hx => h x (List.mem_cons_of_mem a hx)

/-- C1: when the platform returns a non-empty candidate list but no
candidate's stored email matches the contact case-insensitively and no
candidate's stored phone matches verbatim, `findOrderByNumberAndContact`
returns a `success: false` failure and never a `Found` result; when some
candidate matches, the first matching candidate is the one returned. -/
theorem resolver_contact_gate
    (ordersApi : OrdersApi) (fulfillApi : FulfillApi)
    (orderNumber contactInfo : String) (orders : List JsOrder)
    (hq : ordersApi (orderQuery orderNumber) = .ok (some orders))
    (hne : orders ≠ []) :
    ((∀ o ∈ orders, contactMatches contactInfo o = false) →
        findOrderByNumberAndContact ordersApi fulfillApi orderNumber contactInfo =
          .err "Order not found with provided contact information" ∧
        ∀ o f, findOrderByNumberAndContact ordersApi fulfillApi orderNumber contactInfo ≠
          .ok o f) ∧
    (∀ i : Nat, ∀ hi : i < orders.length,
        contactMatches contactInfo (orders.get ⟨i, hi⟩) = true →
        (∀ j : Nat, ∀ hj : j < orders.length, j < i →
            contactMatches contactInfo (orders.get ⟨j, hj⟩) = false) →
        findOrderByNumberAndContact ordersApi fulfillApi orderNumber contactInfo =
          .ok (orders.get ⟨i, hi⟩) (fulfillApi (orders.get ⟨i, hi⟩).id)) := by
  have hlen : ¬ orders.length = 0 := by
    simpa [List.length_eq_zero] using hne
  constructor
  · intro hnomatch
    have hfind : orders.find? (contactMatches contactInfo) = none :=
      find?_eq_none_of_all _ _ hnomatch
    constructor
    · simp [findOrderByNumberAndContact, hq, hlen, hfind]
    · intro o f
      simp [findOrderByNumberAndContact, hq, hlen, hfind]
  · intro i hi hp hbefore
    have hfind := find?_eq_get_of_first (contactMatches contactInfo) orders i hi hp hbefore
    simp [findOrderByNumberAndContact, hq, hlen, hfind]

/-- Demo order used to instantiate the resolver theorems. -/
def orderJane : JsOrder :=
  { id := 11, order_number := 1001, name := "#1001", email := some "jane@example.com",
    phone := some "+15550001111", financial_status := some "paid",
    fulfillment_status := some "fulfilled", total_price := some "45.00",
    currency := some "USD" }

/-- Second demo order with a different contact. -/
def orderBob : JsOrder :=
  { id := 12, order_number := 1001, name := "#1001", email := some "bob@example.com",
    phone := some "+15550002222", financial_status := some "paid",
    fulfillment_status := none, total_price := some "10.00",
    currency := some "USD" }

/-- Oracle: the platform finds no candidate orders at all. -/
def apiNoOrders : OrdersApi := fun _ => .ok (some [])

/-- Oracle: the platform returns Jane's order for every query. -/
def apiJaneOnly : OrdersApi := fun _ => .ok (some [orderJane])

/-- Oracle: the platform returns Jane's and Bob's orders for the cleaned
order number `1001` and an empty body otherwise. -/
def apiTwoOrders : OrdersApi := fun q =>
  if q = orderQuery "1001" then .ok (some [orderJane, orderBob]) else .ok none

/-- Oracle: the transport throws on every request. -/
def apiThrows : OrdersApi := fun _ => .error "ECONNREFUSED"

/-- Fulfillment oracle returning no fulfillments. -/
def noFulfillments : FulfillApi := fun _ => []

/-- Witness for `resolver_contact_gate`: with candidates `[orderJane,
orderBob]` for order number `1001`, a stranger's contact is rejected and
Bob's email (in different case) selects Bob's order, the first match. -/
theorem resolver_contact_gate_witness :
    findOrderByNumberAndContact apiTwoOrders noFulfillments "1001" "stranger@example.com" =
      .err "Order not found with provided contact information" ∧
    findOrderByNumberAndContact apiTwoOrders noFulfillments "1001" "BOB@Example.COM" =
      .ok orderBob (noFulfillments orderBob.id) := by
  constructor
  · exact ((resolver_contact_gate apiTwoOrders noFulfillments "1001" "stranger@example.com"
      [orderJane, orderBob] rfl (by decide)).1 (by decide)).1
  · exact (resolver_contact_gate apiTwoOrders noFulfillments "1001" "BOB@Example.COM"
      [orderJane, orderBob] rfl (by decide)).2 1 (by decide) (by decide)
      (fun j hj hlt => by
        have hj0 : j = 0 := by omega
        subst hj0
        show contactMatches "BOB@Example.COM" orderJane = false
        decide)

/-- C8: a thrown commerce-platform transport error is caught and reported as
the generic failure `'Failed to search for order'`, which differs from both
`NotFound` messages and is never a `Found` result. -/
theorem transport_error_distinct_failure
    (ordersApi : OrdersApi) (fulfillApi : FulfillApi)
    (orderNumber contactInfo e : String)
    (herr : ordersApi (orderQuery orderNumber) = .error e) :
    findOrderByNumberAndContact ordersApi fulfillApi orderNumber contactInfo =
      .err "Failed to search for order" ∧
    ("Failed to search for order" ≠ "Order not found" ∧
      "Failed to search for order" ≠ "Order not found with provided contact information") ∧
    ∀ o f, findOrderByNumberAndContact ordersApi fulfillApi orderNumber contactInfo ≠
      .ok o f := by
  refine ⟨?_, ⟨by decide, by decide⟩, ?_⟩
  · simp [findOrderByNumberAndContact, herr]
  · intro o f
    simp [findOrderByNumberAndContact, herr]

/-- Witness for `transport_error_distinct_failure` on a throwing transport. -/
theorem transport_error_distinct_failure_witness :
    findOrderByNumberAndContact apiThrows noFulfillments "1001" "jane@example.com" =
      .err "Failed to search for order" :=
  (transport_error_distinct_failure apiThrows noFulfillments "1001" "jane@example.com"
    "ECONNREFUSED" rfl).1

/-- C9: order-number cleaning strips one leading `#` before the platform
query — prepending `#` never changes the issued query, `"#1001"` and
`"1001"` both query with cleaned name `"1001"`, status `'any'` and limit 10,
and the whole lookup result coincides for both spellings against any
oracles. -/
theorem clean_order_number_strips_hash :
    (∀ n : String, stripHash ("#" ++ n) = n) ∧
    orderQuery "#1001" = { name := "1001", status := "any", limit := 10 } ∧
    orderQuery "1001" = { name := "1001", status := "any", limit := 10 } ∧
    (∀ ordersApi : OrdersApi, ∀ fulfillApi : FulfillApi, ∀ contactInfo : String,
        findOrderByNumberAndContact ordersApi fulfillApi "#1001" contactInfo =
          findOrderByNumberAndContact ordersApi fulfillApi "1001" contactInfo) := by
  have hstrip : ∀ n : String, stripHash ("#" ++ n) = n := by
    intro n
    cases n with
    | mk data => rfl
  refine ⟨hstrip, by decide, by decide, ?_⟩
  intro ordersApi fulfillApi contactInfo
  have hq : orderQuery "#1001" = orderQuery "1001" := by decide
  simp [findOrderByNumberAndContact, hq]

/-- C2 (refuted): the two `NotFound`-style failures are distinguishable — a
lookup whose candidate list is empty answers `'Order not found'`, while a
lookup whose candidates all mismatch the contact answers
`'Order not found with provided contact information'`, so the error message
reveals whether the order number alone exists. -/
theorem notfound_messages_reveal_existence :
    findOrderByNumberAndContact apiNoOrders noFulfillments "1001" "stranger@example.com" =
      .err "Order not found" ∧
    findOrderByNumberAndContact apiJaneOnly noFulfillments "1001" "stranger@example.com" =
      .err "Order not found with provided contact information" ∧
    "Order not found" ≠ "Order not found with provided contact information" := by
  refine ⟨by decide, by decide, by decide⟩

/-!
## Public lookup route (`routes/tracking.js`, `POST /lookup/:shopDomain`)

The settings read and the access-token fetch are modelled as already
resolved values (`getShopAccessToken` catches its own errors and falls back
to an environment token).  `Database.recordTrackingView` is modelled as an
`Except String Unit`: `.error` is a thrown analytics failure, which the
route `await`s inside its `try` block.
-/

/-- The two settings flags the route reads to gate availability. -/
structure Settings where
  trackingPageEnabled : Bool
  trackingBlockEnabled : Bool
deriving DecidableEq

/-- JSON body of a lookup route response. -/
inductive LookupBody where
  | validationError (error : String)
  | unavailable (error : String)
  | unauthorized (error : String)
  | result (r : FindResult)
  | serverError (error : String) (message : String)
deriving DecidableEq

/-- An HTTP response: status code plus JSON body. -/
structure HttpResponse where
  status : Nat
  body : LookupBody
deriving DecidableEq

/-- Embedding of the `POST /lookup/:shopDomain` handler: request validation,
settings gate, access-token gate, order resolution, then — for a successful
resolution only — the awaited analytics write followed by `res.json(result)`;
a throw anywhere inside the `try` block (in particular from the analytics
write) lands in the `catch` and produces the 500 response. -/
def lookupRoute (settings : Option Settings) (accessToken : Option String)
    (ordersApi : OrdersApi) (fulfillApi : FulfillApi)
    (recordTrackingView : Except String Unit)
    (orderNumber email phone : Option String) : HttpResponse :=
  if !truthy orderNumber || (!truthy email && !truthy phone) then
    { status := 400, body := .validationError "Order number and email or phone are required" }
  else
    match settings with
    | none => { status := 404, body := .unavailable "Tracking service not available" }
    | some s =>
      if !s.trackingPageEnabled && !s.trackingBlockEnabled then
        { status := 404, body := .unavailable "Tracking service not available" }
      else if !truthy accessToken then
        { status := 401, body := .unauthorized "Shop not authorized" }
      else
        let contactInfo := if truthy email then email.getD "" else phone.getD ""
        match findOrderByNumberAndContact ordersApi fulfillApi (orderNumber.getD "") contactInfo with
        | .ok o f =>
          match recordTrackingView with
          | .error _ =>
            { status := 500,
              body := .serverError "Failed to lookup tracking information" "Please try again later" }
          | .ok _ => { status := 200, body := .result (.ok o f) }
        | .err e => { status := 404, body := .result (.err e) }

/-- Settings with the tracking page enabled, used to exercise the route. -/
def demoSettings : Settings := { trackingPageEnabled := true, trackingBlockEnabled := false }

/-- C3 (refuted): the route `await`s `Database.recordTrackingView` inside its
`try` block before sending the successful body, so an analytics throw turns
the 200 `Found` response into the 500 catch-all — on the same resolved
lookup, a succeeding analytics write yields status 200 with the `Found`
body while a throwing one yields status 500 with the generic error body. -/
theorem analytics_throw_changes_response :
    lookupRoute (some demoSettings) (some "shpat-token") apiJaneOnly noFulfillments
        (.ok ()) (some "1001") (some "jane@example.com") none =
      { status := 200, body := .result (.ok orderJane []) } ∧
    lookupRoute (some demoSettings) (some "shpat-token") apiJaneOnly noFulfillments
        (.error "db write failed") (some "1001") (some "jane@example.com") none =
      { status := 500,
        body := .serverError "Failed to lookup tracking information" "Please try again later" } ∧
    (200 : Nat) ≠ 500 := by
  refine ⟨by decide, by decide, by decide⟩

/-!
## Carrier Tracking Client (`trackingService.js`)

Each per-carrier HTTP call is an oracle
`CarrierApi : CarrierKind → String → Except String (Option LiveTrackInfo)`:
`.error` is a thrown axios error (network, auth, timeout), `.ok none` is a
2xx response whose body lacks the expected `trackInfo` shape, and
`.ok (some info)` carries the fields the adapter reads out of the carrier's
response.
-/

/-- One entry of a snapshot's `events` array. -/
structure TrackingEvent where
  date : Option String
  time : Option String
  description : Option String
  location : Option String
deriving DecidableEq

/-- A tracking snapshot (`success: true` object of `trackingService.js`).
Live snapshots leave `isLiveData` unset (JS `undefined`, here `none`); the
fallback sets it to `false`. -/
structure TrackingSnapshot where
  carrier : String
  trackingNumber : String
  status : String
  message : Option String
  trackingUrl : Option String
  estimatedDelivery : Option String
  location : Option String
  events : List TrackingEvent
  isLiveData : Option Bool
deriving DecidableEq

/-- Result of `getTrackingInfo`: the `success: false` validation object for
missing inputs, or a snapshot. -/
inductive TrackingResult where
  | invalid (error : String)
  | snapshot (s : TrackingSnapshot)
deriving DecidableEq

def TrackingResult.isSnapshot : TrackingResult → Bool
  | .snapshot _ => true
  | .invalid _ => false

/-- The four dispatchable carriers of `getTrackingInfo`'s `switch`. -/
inductive CarrierKind where
  | ups | fedex | usps | dhl
deriving DecidableEq

/-- Fields an adapter extracts from a live carrier response. -/
structure LiveTrackInfo where
  rawStatus : Option String
  estimatedDelivery : Option String
  location : Option String
  events : List TrackingEvent
deriving DecidableEq

def CarrierApi := CarrierKind → String → Except String (Option LiveTrackInfo)

/-- The per-carrier API keys read from the environment at construction. -/
structure ApiKeys where
  ups : Option String
  fedex : Option String
  usps : Option String
  dhl : Option String
deriving DecidableEq

/-- UTF-8 bytes of one character. -/
def utf8Bytes (c : Char) : List Nat :=
  let n := c.toNat
  if n < 0x80 then [n]
  else if n < 0x800 then [0xC0 + n / 0x40, 0x80 + n % 0x40]
  else if n < 0x10000 then [0xE0 + n / 0x1000, 0x80 + n / 0x40 % 0x40, 0x80 + n % 0x40]
  else [0xF0 + n / 0x40000, 0x80 + n / 0x1000 % 0x40, 0x80 + n / 0x40 % 0x40, 0x80 + n % 0x40]

/-- Uppercase hexadecimal digit. -/
def hexDigit (n : Nat) : Char :=
  if n < 10 then Char.ofNat (48 + n) else Char.ofNat (55 + n)

/-- Characters `encodeURIComponent` leaves unescaped (alphanumerics and
`-_.!~*'()`; code 39 is the apostrophe). -/
def isUriUnreserved (c : Char) : Bool :=
  c.isAlphanum || c == '-' || c == '_' || c == '.' || c == '!' || c == '~' ||
    c == '*' || c.toNat == 39 || c == '(' || c == ')'

/-- JS `encodeURIComponent`: percent-encode every reserved character's UTF-8
bytes. -/
def encodeURIComponent (s : String) : String :=
  ⟨(s.data.map (fun c =>
      if isUriUnreserved c then [c]
      else ((utf8Bytes c).map
        (fun b => ['%', hexDigit (b / 16), hexDigit (b % 16)])).flatten)).flatten⟩

/-- The static carrier-name → tracking-URL table of `getFallbackTracking`,
in source order. -/
def fallbackTrackingUrls (trackingNumber : String) : List (String × String) :=
  [ ("ups", "https://www.ups.com/track?tracknum=" ++ trackingNumber)
  , ("fedex", "https://www.fedex.com/fedextrack/?trknbr=" ++ trackingNumber)
  , ("usps", "https://tools.usps.com/go/TrackConfirmAction?tLabels=" ++ trackingNumber)
  , ("dhl", "https://www.dhl.com/en/express/tracking.html?AWB=" ++ trackingNumber)
  , ("canada post", "https://www.canadapost-postescanada.ca/track-reperage/en#/search?searchFor=" ++ trackingNumber)
  , ("royal mail", "https://www.royalmail.com/track-your-item#/tracking-results/" ++ trackingNumber)
  , ("australia post", "https://auspost.com.au/mypost/track/#/details/" ++ trackingNumber) ]

/-- The first table entry matching the lowercased carrier in either
direction (`carrierLower.includes(key) || key.includes(carrierLower)`). -/
def fallbackUrlFor (carrier trackingNumber : String) : Option String :=
  ((fallbackTrackingUrls trackingNumber).find?
    (fun kv => strIncludes (strToLower carrier) kv.1 ||
      strIncludes kv.1 (strToLower carrier))).map Prod.snd

/-- Embedding of `getFallbackTracking`: canonical status `'In Transit'`,
`isLiveData: false`, the unavailability message, and a best-effort URL —
the first table match or else a search-engine query over the carrier name
and tracking number. -/
def getFallbackTracking (carrier trackingNumber : String) : TrackingSnapshot :=
  { carrier := carrier
  , trackingNumber := trackingNumber
  , status := "In Transit"
  , message := some "Live tracking data not available. Please check the carrier website for updates."
  , trackingUrl := some (match fallbackUrlFor carrier trackingNumber with
      | some url => url
      | none => "https://www.google.com/search?q=" ++
          encodeURIComponent (carrier ++ " tracking " ++ trackingNumber))
  , estimatedDelivery := none
  , location := none
  , events := []
  , isLiveData := some false }

/-- A live snapshot as built by the UPS/FedEx/DHL adapters: normalized
status, carrier-specific URL, the response's delivery/location/event data,
no `isLiveData` field. -/
def liveSnapshot (carrier trackingNumber url : String) (info : LiveTrackInfo) :
    TrackingSnapshot :=
  { carrier := carrier
  , trackingNumber := trackingNumber
  , status := normalizeStatus info.rawStatus
  , message := none
  , trackingUrl := some url
  , estimatedDelivery := info.estimatedDelivery
  , location := info.location
  , events := info.events
  , isLiveData := none }

/-- Embedding of `getUPSTracking`: a missing key short-circuits to the
fallback; a thrown call or a response without `trackResponse.shipment[0]`
falls back; otherwise the live snapshot is returned. -/
def getUPSTracking (keys : ApiKeys) (net : CarrierApi) (trackingNumber : String) :
    TrackingSnapshot :=
  match keys.ups with
  | none => getFallbackTracking "UPS" trackingNumber
  | some _ =>
    match net .ups trackingNumber with
    | .error _ => getFallbackTracking "UPS" trackingNumber
    | .ok none => getFallbackTracking "UPS" trackingNumber
    | .ok (some info) =>
      liveSnapshot "UPS" trackingNumber
        ("https://www.ups.com/track?tracknum=" ++ trackingNumber) info

/-- Embedding of `getFedExTracking` (same shape as the UPS adapter). -/
def getFedExTracking (keys : ApiKeys) (net : CarrierApi) (trackingNumber : String) :
    TrackingSnapshot :=
  match keys.fedex with
  | none => getFallbackTracking "FedEx" trackingNumber
  | some _ =>
    match net .fedex trackingNumber with
    | .error _ => getFallbackTracking "FedEx" trackingNumber
    | .ok none => getFallbackTracking "FedEx" trackingNumber
    | .ok (some info) =>
      liveSnapshot "FedEx" trackingNumber
        ("https://www.fedex.com/fedextrack/?trknbr=" ++ trackingNumber) info

/-- Embedding of `getUSPSTracking`: the XML `TrackSummary` text (if the
response contains one) becomes the raw status; no delivery estimate,
location or events are extracted. -/
def getUSPSTracking (keys : ApiKeys) (net : CarrierApi) (trackingNumber : String) :
    TrackingSnapshot :=
  match keys.usps with
  | none => getFallbackTracking "USPS" trackingNumber
  | some _ =>
    match net .usps trackingNumber with
    | .error _ => getFallbackTracking "USPS" trackingNumber
    | .ok none => getFallbackTracking "USPS" trackingNumber
    | .ok (some info) =>
      { carrier := "USPS"
      , trackingNumber := trackingNumber
      , status := normalizeStatus info.rawStatus
      , message := none
      , trackingUrl := some ("https://tools.usps.com/go/TrackConfirmAction?tLabels=" ++ trackingNumber)
      , estimatedDelivery := none
      , location := none
      , events := []
      , isLiveData := none }

/-- Embedding of `getDHLTracking` (same shape as the UPS adapter). -/
def getDHLTracking (keys : ApiKeys) (net : CarrierApi) (trackingNumber : String) :
    TrackingSnapshot :=
  match keys.dhl with
  | none => getFallbackTracking "DHL" trackingNumber
  | some _ =>
    match net .dhl trackingNumber with
    | .error _ => getFallbackTracking "DHL" trackingNumber
    | .ok none => getFallbackTracking "DHL" trackingNumber
    | .ok (some info) =>
      liveSnapshot "DHL" trackingNumber
        ("https://www.dhl.com/en/express/tracking.html?AWB=" ++ trackingNumber) info

/-- Embedding of `getTrackingInfo`: reject empty inputs with the
`success: false` validation object, then dispatch by case-insensitive
substring on the carrier name (ups, fedex, usps, dhl, in source order),
defaulting to the fallback snapshot. -/
def getTrackingInfo (keys : ApiKeys) (net : CarrierApi) (carrier trackingNumber : String) :
    TrackingResult :=
  if carrier == "" || trackingNumber == "" then
    .invalid "Carrier and tracking number are required"
  else
    let carrierLower := strToLower carrier
    if strIncludes carrierLower "ups" then
      .snapshot (getUPSTracking keys net trackingNumber)
    else if strIncludes carrierLower "fedex" then
      .snapshot (getFedExTracking keys net trackingNumber)
    else if strIncludes carrierLower "usps" then
      .snapshot (getUSPSTracking keys net trackingNumber)
    else if strIncludes carrierLower "dhl" then
      .snapshot (getDHLTracking keys net trackingNumber)
    else
      .snapshot (getFallbackTracking carrier trackingNumber)

/-- The API key `getTrackingInfo` would consult for a carrier name: the key
of the dispatched adapter, or `none` when the name reaches the `default`
branch. -/
def requiredKey (keys : ApiKeys) (carrier : String) : Option String :=
  let carrierLower := strToLower carrier
  if strIncludes carrierLower "ups" then keys.ups
  else if strIncludes carrierLower "fedex" then keys.fedex
  else if strIncludes carrierLower "usps" then keys.usps
  else if strIncludes carrierLower "dhl" then keys.dhl
  else none

/-- No API keys configured. -/
def noKeys : ApiKeys := { ups := none, fedex := none, usps := none, dhl := none }

/-- Only a UPS key configured. -/
def upsOnlyKeys : ApiKeys := { ups := some "UPS-KEY", fedex := none, usps := none, dhl := none }

/-- Oracle on which every carrier call throws. -/
def netThrows : CarrierApi := fun _ _ => .error "ETIMEDOUT"

/-- Oracle standing in for calls that must never be consulted. -/
def netUnused : CarrierApi := fun _ _ => .error "unreachable"

/-- C5 (refuted as stated): for an empty carrier (or tracking number),
`getTrackingInfo` does not return a snapshot — it returns the
`success: false` validation object. -/
theorem empty_carrier_returns_error_object :
    getTrackingInfo noKeys netUnused "" "1Z999AA10123456784" =
      .invalid "Carrier and tracking number are required" ∧
    (getTrackingInfo noKeys netUnused "" "1Z999AA10123456784").isSnapshot = false := by
  refine ⟨by decide, by decide⟩

/-- C5 (amended): for every non-empty carrier and tracking number,
`getTrackingInfo` is total and returns a snapshot (real or fallback); and
when every carrier call throws, the thrown error is contained and the
result is the fallback snapshot (`isLiveData: false`). -/
theorem track_total_and_exception_contained
    (keys : ApiKeys) (net : CarrierApi) (carrier trackingNumber : String)
    (hc : carrier ≠ "") (ht : trackingNumber ≠ "") :
    (getTrackingInfo keys net carrier trackingNumber).isSnapshot = true ∧
    ((∀ k n, ∃ e, net k n = .error e) →
      ∃ name, getTrackingInfo keys net carrier trackingNumber =
          .snapshot (getFallbackTracking name trackingNumber) ∧
        (getFallbackTracking name trackingNumber).isLiveData = some false) := by
  have hc' : (carrier == "") = false := by simpa using hc
  have ht' : (trackingNumber == "") = false := by simpa using ht
  constructor
  · simp only [getTrackingInfo, hc', ht', Bool.or_self, Bool.false_eq_true, if_false]
    split
    · rfl
    · split
      · rfl
      · split
        · rfl
        · split
          · rfl
          · rfl
  · intro herr
    by_cases b1 : strIncludes (strToLower carrier) "ups" = true
    · refine ⟨"UPS", ?_, rfl⟩
      cases hk : keys.ups with
      | none => simp [getTrackingInfo, hc', ht', b1, getUPSTracking, hk]
      | some key =>
        obtain ⟨e, he⟩ := herr .ups trackingNumber
        simp [getTrackingInfo, hc', ht', b1, getUPSTracking, hk, he]
    · by_cases b2 : strIncludes (strToLower carrier) "fedex" = true
      · refine ⟨"FedEx", ?_, rfl⟩
        cases hk : keys.fedex with
        | none => simp [getTrackingInfo, hc', ht', b1, b2, getFedExTracking, hk]
        | some key =>
          obtain ⟨e, he⟩ := herr .fedex trackingNumber
          simp [getTrackingInfo, hc', ht', b1, b2, getFedExTracking, hk, he]
      · by_cases b3 : strIncludes (strToLower carrier) "usps" = true
        · refine ⟨"USPS", ?_, rfl⟩
          cases hk : keys.usps with
          | none => simp [getTrackingInfo, hc', ht', b1, b2, b3, getUSPSTracking, hk]
          | some key =>
            obtain ⟨e, he⟩ := herr .usps trackingNumber
            simp [getTrackingInfo, hc', ht', b1, b2, b3, getUSPSTracking, hk, he]
        · by_cases b4 : strIncludes (strToLower carrier) "dhl" = true
          · refine ⟨"DHL", ?_, rfl⟩
            cases hk : keys.dhl with
            | none => simp [getTrackingInfo, hc', ht', b1, b2, b3, b4, getDHLTracking, hk]
            | some key =>
              obtain ⟨e, he⟩ := herr .dhl trackingNumber
              simp [getTrackingInfo, hc', ht', b1, b2, b3, b4, getDHLTracking, hk, he]
          · exact ⟨carrier, by simp [getTrackingInfo, hc', ht', b1, b2, b3, b4], rfl⟩

/-- Witness for `track_total_and_exception_contained`: with a UPS key
configured and a transport that times out, the lookup still resolves to the
fallback snapshot. -/
theorem track_total_and_exception_contained_witness :
    (getTrackingInfo upsOnlyKeys netThrows "ups ground" "1Z999AA10123456784").isSnapshot = true ∧
    ∃ name, getTrackingInfo upsOnlyKeys netThrows "ups ground" "1Z999AA10123456784" =
        .snapshot (getFallbackTracking name "1Z999AA10123456784") ∧
      (getFallbackTracking name "1Z999AA10123456784").isLiveData = some false := by
  have h := track_total_and_exception_contained upsOnlyKeys netThrows
    "ups ground" "1Z999AA10123456784" (by decide) (by decide)
  exact ⟨h.1, h.2 (fun k n => ⟨"ETIMEDOUT", rfl⟩)⟩

/-- C7: when the dispatched carrier has no configured API key — including
every unrecognized carrier name — `getTrackingInfo` returns the fallback
snapshot without consulting the network oracle at all: the result is
independent of the oracle, equals `getFallbackTracking` for the dispatched
name, has `isLiveData: false`, status `'In Transit'` and a non-null
tracking URL; each of the seven table carriers gets its static URL and any
carrier with no table match gets the search-engine URL over its name and
tracking number. -/
theorem missing_key_short_circuits_to_fallback :
    (∀ keys : ApiKeys, ∀ net net' : CarrierApi, ∀ carrier trackingNumber : String,
        requiredKey keys carrier = none →
        getTrackingInfo keys net carrier trackingNumber =
          getTrackingInfo keys net' carrier trackingNumber) ∧
    (∀ keys : ApiKeys, ∀ net : CarrierApi, ∀ carrier trackingNumber : String,
        carrier ≠ "" → trackingNumber ≠ "" → requiredKey keys carrier = none →
        ∃ name, (name = "UPS" ∨ name = "FedEx" ∨ name = "USPS" ∨ name = "DHL" ∨
            name = carrier) ∧
          getTrackingInfo keys net carrier trackingNumber =
            .snapshot (getFallbackTracking name trackingNumber)) ∧
    (∀ carrier trackingNumber : String,
        (getFallbackTracking carrier trackingNumber).isLiveData = some false ∧
        (getFallbackTracking carrier trackingNumber).status = "In Transit" ∧
        ((getFallbackTracking carrier trackingNumber).trackingUrl).isSome = true) ∧
    (∀ t : String,
        (getFallbackTracking "UPS" t).trackingUrl =
          some ("https://www.ups.com/track?tracknum=" ++ t) ∧
        (getFallbackTracking "FedEx" t).trackingUrl =
          some ("https://www.fedex.com/fedextrack/?trknbr=" ++ t) ∧
        (getFallbackTracking "USPS" t).trackingUrl =
          some ("https://tools.usps.com/go/TrackConfirmAction?tLabels=" ++ t) ∧
        (getFallbackTracking "DHL" t).trackingUrl =
          some ("https://www.dhl.com/en/express/tracking.html?AWB=" ++ t) ∧
        (getFallbackTracking "Canada Post" t).trackingUrl =
          some ("https://www.canadapost-postescanada.ca/track-reperage/en#/search?searchFor=" ++ t) ∧
        (getFallbackTracking "Royal Mail" t).trackingUrl =
          some ("https://www.royalmail.com/track-your-item#/tracking-results/" ++ t) ∧
        (getFallbackTracking "Australia Post" t).trackingUrl =
          some ("https://auspost.com.au/mypost/track/#/details/" ++ t)) ∧
    (∀ carrier trackingNumber : String,
        fallbackUrlFor carrier trackingNumber = none →
        (getFallbackTracking carrier trackingNumber).trackingUrl =
          some ("https://www.google.com/search?q=" ++
            encodeURIComponent (carrier ++ " tracking " ++ trackingNumber))) := by
  refine ⟨?_, ?_, ?_, ?_, ?_⟩
  · intro keys net net' carrier trackingNumber hkey
    by_cases b1 : strIncludes (strToLower carrier) "ups" = true
    · have hk : keys.ups = none := by simpa [requiredKey, b1] using hkey
      simp [getTrackingInfo, b1, getUPSTracking, hk]
    · by_cases b2 : strIncludes (strToLower carrier) "fedex" = true
      · have hk : keys.fedex = none := by simpa [requiredKey, b1, b2] using hkey
        simp [getTrackingInfo, b1, b2, getFedExTracking, hk]
      · by_cases b3 : strIncludes (strToLower carrier) "usps" = true
        · have hk : keys.usps = none := by simpa [requiredKey, b1, b2, b3] using hkey
          simp [getTrackingInfo, b1, b2, b3, getUSPSTracking, hk]
        · by_cases b4 : strIncludes (strToLower carrier) "dhl" = true
          · have hk : keys.dhl = none := by simpa [requiredKey, b1, b2, b3, b4] using hkey
            simp [getTrackingInfo, b1, b2, b3, b4, getDHLTracking, hk]
          · simp [getTrackingInfo, b1, b2, b3, b4]
  · intro keys net carrier trackingNumber hc ht hkey
    have hc' : (carrier == "") = false := by simpa using hc
    have ht' : (trackingNumber == "") = false := by simpa using ht
    by_cases b1 : strIncludes (strToLower carrier) "ups" = true
    · have hk : keys.ups = none := by simpa [requiredKey, b1] using hkey
      exact ⟨"UPS", Or.inl rfl,
        by simp [getTrackingInfo, hc', ht', b1, getUPSTracking, hk]⟩
    · by_cases b2 : strIncludes (strToLower carrier) "fedex" = true
      · have hk : keys.fedex = none := by simpa [requiredKey, b1, b2] using hkey
        exact ⟨"FedEx", Or.inr (Or.inl rfl),
          by simp [getTrackingInfo, hc', ht', b1, b2, getFedExTracking, hk]⟩
      · by_cases b3 : strIncludes (strToLower carrier) "usps" = true
        · have hk : keys.usps = none := by simpa [requiredKey, b1, b2, b3] using hkey
          exact ⟨"USPS", Or.inr (Or.inr (Or.inl rfl)),
            by simp [getTrackingInfo, hc', ht', b1, b2, b3, getUSPSTracking, hk]⟩
        · by_cases b4 : strIncludes (strToLower carrier) "dhl" = true
          · have hk : keys.dhl = none := by simpa [requiredKey, b1, b2, b3, b4] using hkey
            exact ⟨"DHL", Or.inr (Or.inr (Or.inr (Or.inl rfl))),
              by simp [getTrackingInfo, hc', ht', b1, b2, b3, b4, getDHLTracking, hk]⟩
          · exact ⟨carrier, Or.inr (Or.inr (Or.inr (Or.inr rfl))),
              by simp [getTrackingInfo, hc', ht', b1, b2, b3, b4]⟩
  · intro carrier trackingNumber
    exact ⟨rfl, rfl, rfl⟩
  · intro t
    exact ⟨rfl, rfl, rfl, rfl, rfl, rfl, rfl⟩
  · intro carrier trackingNumber hfind
    simp [getFallbackTracking, hfind]

/-- Witness for `missing_key_short_circuits_to_fallback`: with no keys
configured, a UPS lookup ignores a throwing transport, and an unrecognized
carrier resolves to a fallback snapshot. -/
theorem missing_key_short_circuits_to_fallback_witness :
    (getTrackingInfo noKeys netThrows "UPS" "1Z999AA10123456784" =
      getTrackingInfo noKeys netUnused "UPS" "1Z999AA10123456784") ∧
    (∃ name, (name = "UPS" ∨ name = "FedEx" ∨ name = "USPS" ∨ name = "DHL" ∨
        name = "Deutsche Post") ∧
      getTrackingInfo noKeys netThrows "Deutsche Post" "DP123" =
        .snapshot (getFallbackTracking name "DP123")) ∧
    fallbackUrlFor "Deutsche Post" "DP123" = none ∧
    (getFallbackTracking "Deutsche Post" "DP123").trackingUrl =
      some ("https://www.google.com/search?q=" ++
        encodeURIComponent ("Deutsche Post" ++ " tracking " ++ "DP123")) := by
  refine ⟨?_, ?_, by decide, ?_⟩
  · exact missing_key_short_circuits_to_fallback.1 noKeys netThrows netUnused
      "UPS" "1Z999AA10123456784" (by decide)
  · exact missing_key_short_circuits_to_fallback.2.1 noKeys netThrows
      "Deutsche Post" "DP123" (by decide) (by decide) (by decide)
  · exact missing_key_short_circuits_to_fallback.2.2.2.2 "Deutsche Post" "DP123" (by decide)

/-!
## Tracking endpoint (`simple-server.js`, `GET /api/tracking/:orderNumber`)

`shopifyService.getOrders` is modelled with its transport as an oracle
`GetOrdersApi`; the endpoint's fulfillment fetch reuses `FulfillApi` and its
enhanced-tracking call reuses the carrier client above.
-/

/-- JS `x || d` on an optional string (`undefined`/`null`/`""` pick `d`). -/
def strOr (v : Option String) (d : String) : String :=
  match v with
  | some s => if s == "" then d else s
  | none => d

/-- JS `x || d` on an optional number (`undefined`/`null`/`0` pick `d`). -/
def natOr (v : Option Nat) (d : Nat) : Nat :=
  match v with
  | some n => if n = 0 then d else n
  | none => d

/-- The query `shopifyService.getOrders` sends.  Note: the source builds it
as `{ status, limit, fields, ...options.query }`, so the `name` option the
tracking endpoint passes is dropped and never reaches the platform query. -/
structure GetOrdersQuery where
  status : String
  limit : Nat
  fields : String
deriving DecidableEq

def GetOrdersApi := GetOrdersQuery → Except String (Option (List JsOrder))

/-- Result shape of `shopifyService.getOrders`. -/
inductive GetOrdersResult where
  | ok (orders : List JsOrder)
  | err (error : String)
deriving DecidableEq

/-- Embedding of `shopifyService.getOrders`: defaulted status and limit, a
fixed field list, `orders || []` on the response, and the catch-all error.
The `name` passed in `options` by the tracking endpoint is not part of the
built query (see `GetOrdersQuery`). -/
def getOrders (api : GetOrdersApi) (statusOpt : Option String) (limitOpt : Option Nat)
    (nameOpt : Option String) : GetOrdersResult :=
  let _dropped := nameOpt
  let query : GetOrdersQuery :=
    { status := strOr statusOpt "any"
    , limit := natOr limitOpt 50
    , fields := "id,order_number,name,email,created_at,financial_status,fulfillment_status,total_price,currency" }
  match api query with
  | .error _ => .err "Failed to fetch orders"
  | .ok body => .ok (body.getD [])

/-- Response of the `GET /api/tracking/:orderNumber` endpoint. -/
inductive TrackPageResponse where
  | failure (status : Nat) (error : String)
  | success (orderNumber : String) (fulfillStatus : String)
      (trackingNumber trackingCompany trackingUrl : Option String)
      (fulfillments : List Fulfillment) (order : JsOrder)
      (enhancedTracking : Option TrackingResult)
deriving DecidableEq

/-- The `enhancedTracking` field of the endpoint's JSON body (`null` when
absent or on a failure response). -/
def TrackPageResponse.enhanced : TrackPageResponse → Option TrackingResult
  | .success _ _ _ _ _ _ _ e => e
  | .failure _ _ => none

/-- Embedding of the `GET /api/tracking/:orderNumber` handler: session gate,
order fetch (limit 1), fulfillment fetch, then enhanced tracking — invoked
only when `fulfillments[0]` has a truthy tracking number and a truthy
carrier — and the assembled JSON body.  (The handler's inner `try`/`catch`
around the carrier call never fires here because `getTrackingInfo` is
total.) -/
def trackingEndpoint (session : Option (String × String))
    (api : GetOrdersApi) (fulfillApi : FulfillApi)
    (keys : ApiKeys) (net : CarrierApi) (orderNumber : String) : TrackPageResponse :=
  match session with
  | none => .failure 400 "No valid Shopify session found"
  | some _ =>
    match getOrders api none (some 1) (some (stripHash orderNumber)) with
    | .err _ => .failure 404 "Order not found"
    | .ok orders =>
      match orders with
      | [] => .failure 404 "Order not found"
      | order :: _ =>
        let fulfillments := fulfillApi order.id
        let enhancedTracking : Option TrackingResult :=
          match fulfillments with
          | [] => none
          | f0 :: _ =>
            if truthy f0.tracking_number && truthy f0.tracking_company then
              some (getTrackingInfo keys net (f0.tracking_company.getD "")
                (f0.tracking_number.getD ""))
            else none
        .success (strOr (some order.name) (toString order.order_number))
          (strOr order.fulfillment_status "unfulfilled")
          (match fulfillments with | [] => none | f0 :: _ => f0.tracking_number)
          (match fulfillments with | [] => none | f0 :: _ => f0.tracking_company)
          (match fulfillments with | [] => none | f0 :: _ => f0.tracking_url)
          fulfillments order enhancedTracking

/-- A fulfillment with no tracking data yet. -/
def fulfillPending : Fulfillment :=
  { id := 21, status := some "pending", tracking_company := none,
    tracking_number := none, tracking_url := none }

/-- A shipped fulfillment with carrier and tracking number. -/
def fulfillShipped : Fulfillment :=
  { id := 22, status := some "success", tracking_company := some "UPS",
    tracking_number := some "1Z999AA10123456784", tracking_url := none }

/-- Fulfillment oracle: Jane's order has a pending first fulfillment and a
shipped second one. -/
def fulfillLateShipment : FulfillApi :=
  fun i => if i = 11 then [fulfillPending, fulfillShipped] else []

/-- Fulfillment oracle: Jane's order has the shipped fulfillment first. -/
def fulfillShippedFirst : FulfillApi :=
  fun i => if i = 11 then [fulfillShipped] else []

/-- Orders oracle for the endpoint: the platform returns Jane's order. -/
def pageApiJane : GetOrdersApi := fun _ => .ok (some [orderJane])

/-- C4 (refuted as stated): an order whose fulfillment list contains an
eligible fulfillment (non-empty carrier and tracking number) in second
position gets no `enhancedTracking`, because the handler only inspects
`fulfillments[0]`. -/
theorem enhancement_skips_later_eligible_fulfillment :
    (trackingEndpoint (some ("demo.myshopify.com", "shpat-token")) pageApiJane
        fulfillLateShipment noKeys netUnused "#1001").enhanced = none ∧
    (fulfillLateShipment orderJane.id).any
        (fun f => truthy f.tracking_number && truthy f.tracking_company) = true := by
  refine ⟨by decide, by decide⟩

/-- C4 (amended): the endpoint enhances exactly the head of the fulfillment
list — `enhancedTracking` is attached iff `fulfillments[0]` has a truthy
tracking number and carrier, in which case it is the carrier client's result
for that first fulfillment; any later eligible fulfillment is ignored, and
an empty or head-ineligible list yields no `enhancedTracking`. -/
theorem enhancement_head_fulfillment_only
    (session : String × String) (api : GetOrdersApi) (fulfillApi : FulfillApi)
    (keys : ApiKeys) (net : CarrierApi) (orderNumber : String)
    (order : JsOrder) (rest : List JsOrder)
    (horders : getOrders api none (some 1) (some (stripHash orderNumber)) =
      .ok (order :: rest)) :
    (fulfillApi order.id = [] →
      (trackingEndpoint (some session) api fulfillApi keys net orderNumber).enhanced = none) ∧
    (∀ f0 : Fulfillment, ∀ fs : List Fulfillment, fulfillApi order.id = f0 :: fs →
      ((truthy f0.tracking_number && truthy f0.tracking_company) = true →
        (trackingEndpoint (some session) api fulfillApi keys net orderNumber).enhanced =
          some (getTrackingInfo keys net (f0.tracking_company.getD "")
            (f0.tracking_number.getD ""))) ∧
      ((truthy f0.tracking_number && truthy f0.tracking_company) = false →
        (trackingEndpoint (some session) api fulfillApi keys net orderNumber).enhanced =
          none)) := by
  constructor
  · intro hf
    simp [trackingEndpoint, horders, hf, TrackPageResponse.enhanced]
  · intro f0 fs hf
    constructor
    · intro helig
      simp [trackingEndpoint, horders, hf, helig, TrackPageResponse.enhanced]
    · intro helig
      simp [trackingEndpoint, horders, hf, helig, TrackPageResponse.enhanced]

/-- Witness for `enhancement_head_fulfillment_only`: with the shipped
fulfillment first, the endpoint attaches the carrier client's snapshot for
it. -/
theorem enhancement_head_fulfillment_only_witness :
    (trackingEndpoint (some ("demo.myshopify.com", "shpat-token")) pageApiJane
        fulfillShippedFirst noKeys netUnused "#1001").enhanced =
      some (getTrackingInfo noKeys netUnused "UPS" "1Z999AA10123456784") := by
  have h := (enhancement_head_fulfillment_only ("demo.myshopify.com", "shpat-token")
    pageApiJane fulfillShippedFirst noKeys netUnused "#1001" orderJane [] rfl).2
    fulfillShipped [] rfl
  exact h.1 (by decide)

end Tracking
